import Mathlib

/-!
Verification of the Query Log fetch/pagination controller of the Pi-hole
web interface (the `QueryLog` React component).

The development shallowly embeds:
  * `parseFilters` — the pure filter translator turning the table's filter
    entries into History API query parameters;
  * the pagination controller: `fetchQueries` (the `requestPage` trigger),
    the response completion handler, the failure handler
    (`.catch(ignoreCancel)`), and `onFilteredChange` (the `setFilters`
    trigger);
  * an operational semantics: a `World` holds the component state plus the
    multiset of outstanding (uncancelled) History API requests, and events
    (`fetch`, `complete`, `fail`, `setFilters`) drive it exactly as the
    component's handlers do.

Machine integers do not occur (JavaScript numbers here are unbounded page
indices, lengths, and millisecond instants); `parseInt` is modelled with an
explicit NaN value (`JSNum.nan`).
-/

/-- One historical query as delivered by the History API
(fields as read by the component: `r.timestamp`, `r.type`, `r.domain`,
`r.client`, `r.status`, `r.dnssec`, `r.reply`, `r.response_time`). -/
structure ApiQuery where
  timestamp : Int
  type : Nat
  domain : String
  client : String
  status : Nat
  dnssec : Nat
  reply : Nat
  response_time : Nat
deriving DecidableEq, Repr

/-- The value carried by a table filter entry: the `time` filter carries a
`{start, end}` pair of millisecond instants (moment values); every other
filter carries a string (a sentinel such as "all", a text-box value, or a
stringified select index). -/
inductive FilterValue where
  | str (s : String)
  | range (start stop : Int)
deriving DecidableEq, Repr

/-- A table filter entry `{ id, value }` (react-table's `Filter`; named
`TableFilter` here because Mathlib already declares `Filter`). -/
structure TableFilter where
  id : String
  value : FilterValue
deriving DecidableEq, Repr

/-- A JavaScript number that is either an integer or NaN (the result of
`parseInt` on a non-numeric string). -/
inductive JSNum where
  | nan
  | int (n : Int)
deriving DecidableEq, Repr

/-- Numeric value of a list of decimal digit characters. -/
def digitsVal (cs : List Char) : Nat :=
  cs.foldl (fun a c => a * 10 + (c.toNat - 48)) 0

/-- JavaScript `parseInt(s)` (radix 10): skip leading spaces, accept an
optional sign, read the maximal prefix of decimal digits; NaN when there is
none. -/
def jsParseInt (s : String) : JSNum :=
  let cs := s.data.dropWhile (fun c => c = ' ')
  match cs with
  | '-' :: rest =>
      let ds := rest.takeWhile Char.isDigit
      if ds.isEmpty then JSNum.nan else JSNum.int (-(digitsVal ds : Int))
  | '+' :: rest =>
      let ds := rest.takeWhile Char.isDigit
      if ds.isEmpty then JSNum.nan else JSNum.int (digitsVal ds : Int)
  | _ =>
      let ds := cs.takeWhile Char.isDigit
      if ds.isEmpty then JSNum.nan else JSNum.int (digitsVal ds : Int)

/-- Adding one to a JavaScript number (NaN propagates). -/
def jsAddOne : JSNum → JSNum
  | JSNum.nan => JSNum.nan
  | JSNum.int n => JSNum.int (n + 1)

/-- The flat query-parameter record built by `parseFilters` and sent to
`api.getHistory`. A `none` field means the key is absent (the filter is not
applied). -/
structure QueryParams where
  «from» : Option Int := none
  «until» : Option Int := none
  query_type : Option JSNum := none
  domain : Option String := none
  client : Option String := none
  blocked : Option Bool := none
  status : Option String := none
  dnssec : Option String := none
  reply : Option String := none
deriving DecidableEq, Repr

/-- The empty parameter record (`let filters: any = {}` before the loop). -/
def emptyParams : QueryParams := {}

/-- One iteration of the `for (const filter of tableFilters)` loop of
`parseFilters`: a `switch` on `filter.id`. The UI supplies a `range` value
for `time` and a `str` value for every other id; an entry whose value has
the wrong shape for its id (impossible through the UI) is left inert. -/
def applyFilter (q : QueryParams) (f : TableFilter) : QueryParams :=
  if f.id = "time" then
    match f.value with
    | FilterValue.range s e =>
        { q with «from» := some (Int.fdiv s 1000), «until» := some (Int.fdiv e 1000) }
    | _ => q
  else if f.id = "queryType" then
    match f.value with
    | FilterValue.str v =>
        if v = "all" then q
        else { q with query_type := some (jsAddOne (jsParseInt v)) }
    | _ => q
  else if f.id = "domain" then
    match f.value with
    | FilterValue.str v => if v.length = 0 then q else { q with domain := some v }
    | _ => q
  else if f.id = "client" then
    match f.value with
    | FilterValue.str v => if v.length = 0 then q else { q with client := some v }
    | _ => q
  else if f.id = "status" then
    match f.value with
    | FilterValue.str v =>
        if v = "all" then q
        else if v = "allowed" then { q with blocked := some false }
        else if v = "blocked" then { q with blocked := some true }
        else { q with status := some v }
    | _ => q
  else if f.id = "dnssec" then
    match f.value with
    | FilterValue.str v => if v = "all" then q else { q with dnssec := some v }
    | _ => q
  else if f.id = "reply" then
    match f.value with
    | FilterValue.str v => if v = "all" then q else { q with reply := some v }
    | _ => q
  else q

/-- `parseFilters`: fold the loop body over the table's filter entries,
starting from the empty record. -/
def parseFilters (tableFilters : List TableFilter) : QueryParams :=
  tableFilters.foldl applyFilter emptyParams

/-- The filter ids recognized by the `switch` in `parseFilters`. -/
def knownFilterIds : List String :=
  ["time", "queryType", "domain", "client", "status", "dnssec", "reply"]

/-- The component state (`QueryLogState`). -/
structure QueryLogState where
  history : List ApiQuery
  cursor : Option String
  loading : Bool
  atEnd : Bool
  filtersChanged : Bool
  filters : List TableFilter
deriving DecidableEq, Repr

/-- A History API request as issued by `fetchQueries`: the cursor captured
at issue time together with the translated filter parameters
(`{ cursor: this.state.cursor, ...this.parseFilters(this.state.filters) }`). -/
structure Request where
  cursor : Option String
  params : QueryParams
deriving DecidableEq, Repr

/-- A History API response (`ApiHistoryResponse`): a page of queries plus
the continuation cursor (`null` = end of data). -/
structure ApiHistoryResponse where
  history : List ApiQuery
  cursor : Option String
deriving DecidableEq, Repr

/-- A world: the component state plus the outstanding (issued, not yet
settled, never cancelled) History API requests, in issue order. The
component keeps only the latest handle in `this.updateHandler`, but an
overwritten handle's promise chain still runs when it settles, so every
outstanding request is kept here. -/
structure World where
  st : QueryLogState
  inflight : List Request
deriving DecidableEq, Repr

/-- `fetchQueries({page, pageSize})`: no-op when `atEnd` or `loading`, or
when the filters are unchanged and the history already covers this page and
the next; otherwise set `loading` and issue one request built from the
current cursor and `parseFilters` of the current filters. -/
def fetchQueries (w : World) (page pageSize : Nat) : World :=
  if w.st.atEnd || w.st.loading then w
  else if !w.st.filtersChanged && decide ((page + 2) * pageSize ≤ w.st.history.length) then w
  else
    { st := { w.st with loading := true },
      inflight := w.inflight ++
        [{ cursor := w.st.cursor, params := parseFilters w.st.filters }] }

/-- The `.then(data => ...)` completion handler of `fetchQueries`: merge a
response into the state read at resolution time. -/
def mergeResponse (s : QueryLogState) (data : ApiHistoryResponse) : QueryLogState :=
  { s with
    loading := false,
    atEnd := data.cursor.isNone,
    cursor := data.cursor,
    history := s.history ++ data.history,
    filtersChanged := false }

/-- The `onFilteredChange` handler (the `setFilters` trigger): replace the
filters and reset the epoch state. It performs no cancellation of the
outstanding request. -/
def onFilteredChange (s : QueryLogState) (filters : List TableFilter) : QueryLogState :=
  { s with
    filters := filters,
    filtersChanged := true,
    cursor := none,
    atEnd := false,
    loading := false,
    history := [] }

/-- Environment and UI events driving the component:
`fetch` is a (debounced) `onFetchData` call, `complete i data` resolves the
`i`-th outstanding request with a response, `fail i` rejects it with a
transport failure (handled by `.catch(ignoreCancel)`, which rethrows and
mutates nothing), `setFilters` is a (debounced) `onFilteredChange` call. -/
inductive Event where
  | fetch (page pageSize : Nat)
  | complete (i : Nat) (data : ApiHistoryResponse)
  | fail (i : Nat)
  | setFilters (fs : List TableFilter)
deriving DecidableEq, Repr

/-- Resolve the `i`-th outstanding request: its completion handler runs
`mergeResponse`. An index with no outstanding request is a no-op (no such
promise exists). -/
def stepComplete (w : World) (i : Nat) (data : ApiHistoryResponse) : World :=
  if i < w.inflight.length then
    { st := mergeResponse w.st data, inflight := w.inflight.eraseIdx i }
  else w

/-- Reject the `i`-th outstanding request with a non-cancellation failure:
`.catch(ignoreCancel)` rethrows the error and performs no state mutation. -/
def stepFail (w : World) (i : Nat) : World :=
  if i < w.inflight.length then
    { st := w.st, inflight := w.inflight.eraseIdx i }
  else w

/-- One event of the operational semantics. -/
def step (w : World) : Event → World
  | Event.fetch page pageSize => fetchQueries w page pageSize
  | Event.complete i data => stepComplete w i data
  | Event.fail i => stepFail w i
  | Event.setFilters fs => { st := onFilteredChange w.st fs, inflight := w.inflight }

/-- The state created at mount: empty history, null cursor, not loading,
not at end, filters not marked changed, and the seeded time filter (whose
concrete range depends on the wall clock, hence the parameter). -/
def initWorld (fs0 : List TableFilter) : World :=
  { st := { history := [], cursor := none, loading := false, atEnd := false,
            filtersChanged := false, filters := fs0 },
    inflight := [] }

/-- Run a trace of events from a given world. -/
def runFrom (w : World) (es : List Event) : World :=
  es.foldl step w

/-- Run a trace of events from the mount state. -/
def run (fs0 : List TableFilter) (es : List Event) : World :=
  runFrom (initWorld fs0) es

/-- Is an event a `setFilters` call? -/
def isSetFilters : Event → Bool
  | Event.setFilters _ => true
  | _ => false

/-- The pages delivered by the responses that actually settle an
outstanding request along a trace, in delivery order. -/
def deliveredPages : World → List Event → List (List ApiQuery)
  | _, [] => []
  | w, e :: es =>
      (match e with
       | Event.complete i data =>
           if i < w.inflight.length then [data.history] else []
       | _ => []) ++ deliveredPages (step w e) es

/-- A sequence of `fetchQueries` calls (page, pageSize) with no other
event interleaved. -/
def runFetches (w : World) (calls : List (Nat × Nat)) : World :=
  calls.foldl (fun v c => fetchQueries v c.1 c.2) w

/-- Debounce window, in milliseconds, wrapping the `onFetchData` trigger
(`debounce(this.fetchQueries, 350)`). -/
def fetchDebounceMs : Nat := 350

/-- Debounce window, in milliseconds, wrapping the `onFilteredChange`
trigger (`debounce(..., 300)`). -/
def filterDebounceMs : Nat := 300

/-- A sample query record for concrete runs. -/
def q0 : ApiQuery :=
  { timestamp := 1700000000, type := 1, domain := "example.com",
    client := "10.0.0.1", status := 2, dnssec := 1, reply := 4,
    response_time := 100 }

/-- A second sample query record for concrete runs. -/
def q1 : ApiQuery :=
  { timestamp := 1700000005, type := 2, domain := "example.org",
    client := "10.0.0.2", status := 1, dnssec := 0, reply := 2,
    response_time := 50 }

/-- An idle world that has accumulated 50 records. -/
def w50 : World :=
  { st := { history := List.replicate 50 q0, cursor := some "c0",
            loading := false, atEnd := false, filtersChanged := false,
            filters := [] },
    inflight := [] }

/-- An idle world that has accumulated 100 records. -/
def w100 : World :=
  { st := { history := List.replicate 100 q0, cursor := some "c0",
            loading := false, atEnd := false, filtersChanged := false,
            filters := [] },
    inflight := [] }

/-- A world with one request outstanding (`loading = true`). -/
def wPending : World :=
  { st := { history := [], cursor := none, loading := true, atEnd := false,
            filtersChanged := false, filters := [] },
    inflight := [{ cursor := none, params := emptyParams }] }

/-- A trace in which the filters change while a fetch is in flight and the
superseded fetch then resolves. -/
def staleraceTrace : List Event :=
  [Event.fetch 0 1,
   Event.setFilters [{ id := "domain", value := FilterValue.str "pi.hole" }],
   Event.complete 0 { history := [q0], cursor := some "c1" }]

/-- A trace in which the only fetch fails with a transport error. -/
def failTrace : List Event :=
  [Event.fetch 0 1, Event.fail 0]

/-- A trace in which a filter change happens mid-flight and a new page is
then requested. -/
def doubleFlightTrace : List Event :=
  [Event.fetch 0 1, Event.setFilters [], Event.fetch 0 1]

/-- A trace whose single response carries a null cursor. -/
def endTrace : List Event :=
  [Event.fetch 0 1, Event.complete 0 { history := [], cursor := none }]

/-- A two-fetch epoch trace with both responses delivered in order. -/
def epochTrace : List Event :=
  [Event.fetch 0 1, Event.complete 0 { history := [q0], cursor := some "c1" },
   Event.fetch 0 1, Event.complete 0 { history := [q1], cursor := none }]

/-- A filter entry whose id the translator does not recognize. -/
def fUnknown : TableFilter :=
  { id := "upstream", value := FilterValue.str "8.8.8.8" }

theorem parseFilters_append_single (l : List TableFilter) (f : TableFilter) :
    parseFilters (l ++ [f]) = applyFilter (parseFilters l) f := by
  simp [parseFilters, List.foldl_append]

theorem applyFilter_unknown (q : QueryParams) (f : TableFilter)
    (h : f.id ∉ knownFilterIds) : applyFilter q f = q := by
  simp only [knownFilterIds, List.mem_cons, List.mem_singleton, not_or] at h
  obtain ⟨h1, h2, h3, h4, h5, h6, h7, -⟩ := h
  simp [applyFilter, h1, h2, h3, h4, h5, h6, h7]

theorem fetchQueries_st_fields (w : World) (page pageSize : Nat) :
    (fetchQueries w page pageSize).st.atEnd = w.st.atEnd
    ∧ (fetchQueries w page pageSize).st.cursor = w.st.cursor
    ∧ (fetchQueries w page pageSize).st.history = w.st.history := by
  unfold fetchQueries
  split
  · exact ⟨rfl, rfl, rfl⟩
  · split
    · exact ⟨rfl, rfl, rfl⟩
    · exact ⟨rfl, rfl, rfl⟩

theorem fetchQueries_atEnd_noop (w : World) (page pageSize : Nat)
    (h : w.st.atEnd = true) : fetchQueries w page pageSize = w := by
  unfold fetchQueries
  simp [h]

theorem runFetches_atEnd (w : World) (h : w.st.atEnd = true)
    (calls : List (Nat × Nat)) : runFetches w calls = w := by
  induction calls with
  | nil => rfl
  | cons c cs ih =>
      simp only [runFetches, List.foldl_cons,
        fetchQueries_atEnd_noop w c.1 c.2 h]
      exact ih

theorem step_preserves_atEnd_cursor (w : World) (e : Event)
    (h : w.st.atEnd = true → w.st.cursor = none) :
    (step w e).st.atEnd = true → (step w e).st.cursor = none := by
  cases e with
  | fetch page pageSize =>
      intro ha
      have hf := fetchQueries_st_fields w page pageSize
      rw [show step w (Event.fetch page pageSize) = fetchQueries w page pageSize from rfl] at ha ⊢
      rw [hf.1] at ha
      rw [hf.2.1]
      exact h ha
  | complete i data =>
      simp only [step, stepComplete]
      split
      · intro ha
        simp only [mergeResponse] at ha ⊢
        exact Option.isNone_iff_eq_none.mp ha
      · exact h
  | fail i =>
      simp only [step, stepFail]
      split
      · exact h
      · exact h
  | setFilters fs =>
      intro ha
      simp [step, onFilteredChange] at ha

theorem runFrom_atEnd_cursor (es : List Event) :
    ∀ w : World, (w.st.atEnd = true → w.st.cursor = none) →
      ((runFrom w es).st.atEnd = true → (runFrom w es).st.cursor = none) := by
  induction es with
  | nil => intro w h; exact h
  | cons e es ih =>
      intro w h
      simpa only [runFrom, List.foldl_cons] using
        ih (step w e) (step_preserves_atEnd_cursor w e h)

theorem eraseIdx_nil_of_length_le_one {α : Type} (l : List α)
    (h1 : l.length ≤ 1) (i : Nat) (hi : i < l.length) : l.eraseIdx i = [] := by
  rcases l with - | ⟨a, l⟩
  · simp at hi
  · rcases l with - | ⟨b, l⟩
    · rcases i with - | i
      · rfl
      · simp at hi
    · simp at h1

theorem step_singleFlight (w : World) (e : Event)
    (hsf : isSetFilters e = false)
    (h1 : w.inflight.length ≤ 1)
    (h2 : w.st.loading = false → w.inflight = []) :
    (step w e).inflight.length ≤ 1
    ∧ ((step w e).st.loading = false → (step w e).inflight = []) := by
  cases e with
  | fetch page pageSize =>
      simp only [step]
      unfold fetchQueries
      split
      · exact ⟨h1, h2⟩
      · next hguard =>
          split
          · exact ⟨h1, h2⟩
          · have hl : w.st.loading = false := by
              cases hL : w.st.loading
              · rfl
              · exact absurd (by simp [hL]) hguard
            have hi : w.inflight = [] := h2 hl
            refine ⟨by simp [hi], ?_⟩
            intro hfalse
            simp at hfalse
  | complete i data =>
      simp only [step, stepComplete]
      split
      · next hlt =>
          have he := eraseIdx_nil_of_length_le_one w.inflight h1 i hlt
          exact ⟨by simp [he], fun _ => he⟩
      · exact ⟨h1, h2⟩
  | fail i =>
      simp only [step, stepFail]
      split
      · next hlt =>
          have he := eraseIdx_nil_of_length_le_one w.inflight h1 i hlt
          exact ⟨by simp [he], fun _ => he⟩
      · exact ⟨h1, h2⟩
  | setFilters fs => simp [isSetFilters] at hsf

theorem runFrom_singleFlight (es : List Event) :
    ∀ w : World, (∀ e ∈ es, isSetFilters e = false) →
      w.inflight.length ≤ 1 → (w.st.loading = false → w.inflight = []) →
      (runFrom w es).inflight.length ≤ 1 := by
  induction es with
  | nil => intro w _ h1 _; exact h1
  | cons e es ih =>
      intro w hs h1 h2
      have hstep := step_singleFlight w e (hs e (List.mem_cons_self e es)) h1 h2
      simpa only [runFrom, List.foldl_cons] using
        ih (step w e) (fun x hx => hs x (List.mem_cons_of_mem e hx))
          hstep.1 hstep.2

theorem runFrom_history (es : List Event) :
    ∀ w : World, (∀ e ∈ es, isSetFilters e = false) →
      (runFrom w es).st.history = w.st.history ++ (deliveredPages w es).flatten := by
  induction es with
  | nil => intro w _; simp [runFrom, deliveredPages]
  | cons e es ih =>
      intro w hs
      have hrec := ih (step w e) (fun x hx => hs x (List.mem_cons_of_mem e hx))
      have hhead := hs e (List.mem_cons_self e es)
      rw [show runFrom w (e :: es) = runFrom (step w e) es from rfl, hrec]
      cases e with
      | fetch page pageSize =>
          simp [deliveredPages, step, (fetchQueries_st_fields w page pageSize).2.2]
      | complete i data =>
          by_cases hlt : i < w.inflight.length
          · simp [deliveredPages, step, stepComplete, hlt, mergeResponse,
              List.append_assoc]
          · simp [deliveredPages, step, stepComplete, hlt]
      | fail i =>
          by_cases hlt : i < w.inflight.length
          · simp [deliveredPages, step, stepFail, hlt]
          · simp [deliveredPages, step, stepFail, hlt]
      | setFilters fs => simp [isSetFilters] at hhead

/-- Claim C1, counterexample. The claim asserts that a `setFilters` call
cancels the in-flight request so that its eventual resolution is ignored
and `records` never contains a record from the superseded response. On the
trace `staleraceTrace` — issue a fetch, change the filters mid-flight, then
let the superseded fetch resolve with page `[q0]` — the final history is
`[q0]`: the stale response is merged into the new epoch. The only delivered
page along the trace is the stale one. -/
theorem staleResponse_merged_after_setFilters :
    (run [] staleraceTrace).st.history = [q0]
    ∧ (run [] staleraceTrace).st.cursor = some "c1"
    ∧ deliveredPages (initWorld []) staleraceTrace = [[q0]] := by
  decide

/-- Claim C1, amended. `onFilteredChange` does not cancel the in-flight
request (cancellation happens only on unmount): whenever a request is
outstanding and the filters change, the stale request's later resolution
runs the completion handler in the new epoch, so the new epoch's records
become exactly the superseded response's page (appended to the cleared
history), and the stale cursor is installed, while the filters remain the
newly set ones. -/
theorem setFilters_then_complete_merges_stale_page (w : World)
    (fs : List TableFilter) (data : ApiHistoryResponse)
    (h : 0 < w.inflight.length) :
    (step (step w (Event.setFilters fs)) (Event.complete 0 data)).st.history
        = data.history
    ∧ (step (step w (Event.setFilters fs)) (Event.complete 0 data)).st.cursor
        = data.cursor
    ∧ (step (step w (Event.setFilters fs)) (Event.complete 0 data)).st.filters
        = fs := by
  refine ⟨?_, ?_, ?_⟩ <;>
    simp [step, stepComplete, onFilteredChange, mergeResponse, h]

/-- Claim C1, witness for the amended theorem. -/
theorem setFilters_then_complete_merges_stale_page_witness :
    (step (step wPending (Event.setFilters []))
        (Event.complete 0 { history := [q0], cursor := some "c1" })).st.history
        = [q0]
    ∧ (step (step wPending (Event.setFilters []))
        (Event.complete 0 { history := [q0], cursor := some "c1" })).st.cursor
        = some "c1"
    ∧ (step (step wPending (Event.setFilters []))
        (Event.complete 0 { history := [q0], cursor := some "c1" })).st.filters
        = [] :=
  setFilters_then_complete_merges_stale_page wPending []
    { history := [q0], cursor := some "c1" } (by decide)

/-- Claim C2, counterexample. The claim asserts that after a genuine
transport failure `loading` is reset to `false` so a later `requestPage`
can retry. On `failTrace` — issue a fetch, then reject it — the handler
`.catch(ignoreCancel)` performs no state mutation, so `loading` is still
`true`, and a subsequent `fetchQueries` call is a no-op (no retry). -/
theorem fail_leaves_loading_true :
    (run [] failTrace).st.loading = true
    ∧ fetchQueries (run [] failTrace) 0 25 = run [] failTrace := by
  decide

/-- Claim C2, amended. On a non-cancelled failure of an outstanding request
the controller performs no state mutation at all: `atEnd`, `cursor` and
`records` keep their pre-request values (the whole state is unchanged), but
`loading` is not reset to `false` either — if it was `true`, every later
`requestPage` is a no-op, so no retry is possible until a filter change
resets `loading`. -/
theorem fail_no_state_mutation (w : World) (i : Nat)
    (h : i < w.inflight.length) :
    (step w (Event.fail i)).st = w.st
    ∧ (step w (Event.fail i)).inflight = w.inflight.eraseIdx i
    ∧ (w.st.loading = true → ∀ page pageSize : Nat,
        fetchQueries (step w (Event.fail i)) page pageSize
          = step w (Event.fail i)) := by
  refine ⟨by simp [step, stepFail, h], by simp [step, stepFail, h], ?_⟩
  intro hl page pageSize
  unfold fetchQueries
  simp [step, stepFail, h, hl]

/-- Claim C2, witness for the amended theorem. -/
theorem fail_no_state_mutation_witness :
    (step wPending (Event.fail 0)).st = wPending.st
    ∧ (step wPending (Event.fail 0)).inflight = wPending.inflight.eraseIdx 0
    ∧ fetchQueries (step wPending (Event.fail 0)) 0 25
        = step wPending (Event.fail 0) :=
  ⟨(fail_no_state_mutation wPending 0 (by decide)).1,
   (fail_no_state_mutation wPending 0 (by decide)).2.1,
   (fail_no_state_mutation wPending 0 (by decide)).2.2 (by decide) 0 25⟩

/-- Claim C3, counterexample. The claim asserts that in every reachable
state at most one fetch is in flight, including across a `setFilters` that
occurs mid-flight. On `doubleFlightTrace` — fetch, change filters
mid-flight (which resets `loading` to `false` without cancelling), fetch
again — two requests are outstanding at once. -/
theorem two_requests_in_flight :
    (run [] doubleFlightTrace).inflight.length = 2
    ∧ (run [] doubleFlightTrace).st.loading = true := by
  decide

/-- Claim C3, amended. The `loading` guard does enforce at most one
in-flight fetch for every sequence of `requestPage` calls and response
completions or failures that contains no `setFilters` event; a `setFilters`
issued mid-flight resets `loading` without cancelling the outstanding
request, after which a further `requestPage` issues a second concurrent
fetch. -/
theorem single_flight_without_setFilters (fs0 : List TableFilter)
    (es : List Event) (hs : ∀ e ∈ es, isSetFilters e = false) :
    (run fs0 es).inflight.length ≤ 1 :=
  runFrom_singleFlight es (initWorld fs0) hs (by simp [initWorld])
    (fun _ => rfl)

/-- Claim C3, witness for the amended theorem. -/
theorem single_flight_without_setFilters_witness :
    (run [] [Event.fetch 0 1, Event.fetch 1 1,
      Event.complete 0 { history := [q0], cursor := some "c" },
      Event.fetch 0 1]).inflight.length ≤ 1 :=
  single_flight_without_setFilters []
    [Event.fetch 0 1, Event.fetch 1 1,
      Event.complete 0 { history := [q0], cursor := some "c" },
      Event.fetch 0 1] (by decide)

/-- Claim C4: `fetchQueries` (the `requestPage` trigger) is a no-op exactly
when `atEnd` or `loading` holds, or when `filtersChanged` is false and the
accumulated history already has at least `(page + 2) * pageSize` records;
in every other state it sets `loading` and issues exactly one request
carrying the current cursor and `parseFilters` of the active filters. -/
theorem fetchQueries_requestPage_spec (w : World) (page pageSize : Nat) :
    (fetchQueries w page pageSize = w ↔
      (w.st.atEnd = true ∨ w.st.loading = true ∨
        (w.st.filtersChanged = false
          ∧ (page + 2) * pageSize ≤ w.st.history.length)))
    ∧ (¬ (w.st.atEnd = true ∨ w.st.loading = true ∨
        (w.st.filtersChanged = false
          ∧ (page + 2) * pageSize ≤ w.st.history.length)) →
      fetchQueries w page pageSize =
        { st := { w.st with loading := true },
          inflight := w.inflight ++
            [{ cursor := w.st.cursor, params := parseFilters w.st.filters }] }) := by
  by_cases hA : w.st.atEnd = true
  · have hw : fetchQueries w page pageSize = w := by
      unfold fetchQueries; simp [hA]
    exact ⟨⟨fun _ => Or.inl hA, fun _ => hw⟩,
      fun hn => absurd (Or.inl hA) hn⟩
  · by_cases hL : w.st.loading = true
    · have hw : fetchQueries w page pageSize = w := by
        unfold fetchQueries; simp [hL]
      exact ⟨⟨fun _ => Or.inr (Or.inl hL), fun _ => hw⟩,
        fun hn => absurd (Or.inr (Or.inl hL)) hn⟩
    · have hA' : w.st.atEnd = false := by
        cases h : w.st.atEnd
        · rfl
        · exact absurd h hA
      have hL' : w.st.loading = false := by
        cases h : w.st.loading
        · rfl
        · exact absurd h hL
      by_cases hG : w.st.filtersChanged = false
          ∧ (page + 2) * pageSize ≤ w.st.history.length
      · have hw : fetchQueries w page pageSize = w := by
          unfold fetchQueries; simp [hA', hL', hG.1, hG.2]
        exact ⟨⟨fun _ => Or.inr (Or.inr hG), fun _ => hw⟩,
          fun hn => absurd (Or.inr (Or.inr hG)) hn⟩
      · have hg2 : (!w.st.filtersChanged
            && decide ((page + 2) * pageSize ≤ w.st.history.length)) = false := by
          cases hF : w.st.filtersChanged
          · have hnle : ¬ ((page + 2) * pageSize ≤ w.st.history.length) :=
              fun hle => hG ⟨hF, hle⟩
            simp [hnle]
          · simp
        have hw : fetchQueries w page pageSize =
            { st := { w.st with loading := true },
              inflight := w.inflight ++
                [{ cursor := w.st.cursor,
                   params := parseFilters w.st.filters }] } := by
          unfold fetchQueries
          simp [hA', hL', hg2]
        refine ⟨⟨fun heq => ?_, fun hor => ?_⟩, fun _ => hw⟩
        · exfalso
          rw [hw] at heq
          have hcontr := congrArg (fun v => v.st.loading) heq
          simp [hL'] at hcontr
        · rcases hor with h1 | h2 | h3
          · exact absurd h1 (by simp [hA'])
          · exact absurd h2 (by simp [hL'])
          · exact absurd h3 hG

/-- Claim C4, witness: with 50 accumulated records `requestPage(0, 50)`
does issue a fetch (50 >= 100 is false), and with 100 accumulated records
it is a no-op. -/
theorem fetchQueries_requestPage_spec_witness :
    fetchQueries w50 0 50 =
      { st := { w50.st with loading := true },
        inflight := w50.inflight ++
          [{ cursor := w50.st.cursor, params := parseFilters w50.st.filters }] }
    ∧ fetchQueries w100 0 50 = w100 :=
  ⟨(fetchQueries_requestPage_spec w50 0 50).2 (by decide),
   (fetchQueries_requestPage_spec w100 0 50).1.mpr (by decide)⟩

/-- Claim C5: merging a response with a null cursor sets `atEnd = true` and
`cursor = null`, and from that state any number of further `requestPage`
calls issues no History API request and changes nothing; moreover in every
reachable state `atEnd = true` implies `cursor = null`. -/
theorem atEnd_termination :
    (∀ (fs0 : List TableFilter) (es : List Event),
        (run fs0 es).st.atEnd = true → (run fs0 es).st.cursor = none)
    ∧ (∀ (w : World) (i : Nat) (page : List ApiQuery),
        i < w.inflight.length →
        (stepComplete w i { history := page, cursor := none }).st.atEnd = true
        ∧ (stepComplete w i { history := page, cursor := none }).st.cursor = none
        ∧ ∀ calls : List (Nat × Nat),
            runFetches (stepComplete w i { history := page, cursor := none }) calls
              = stepComplete w i { history := page, cursor := none }) := by
  constructor
  · intro fs0 es
    exact runFrom_atEnd_cursor es (initWorld fs0) (by intro h; simp [initWorld] at h)
  · intro w i page hi
    have hA : (stepComplete w i { history := page, cursor := none }).st.atEnd = true := by
      simp [stepComplete, hi, mergeResponse]
    refine ⟨hA, ?_, fun calls => runFetches_atEnd _ hA calls⟩
    simp [stepComplete, hi, mergeResponse]

/-- Claim C5, witness. -/
theorem atEnd_termination_witness :
    (run [] endTrace).st.cursor = none
    ∧ (stepComplete wPending 0 { history := [q0], cursor := none }).st.atEnd = true
    ∧ runFetches (stepComplete wPending 0 { history := [q0], cursor := none })
        [(0, 25), (1, 25)]
        = stepComplete wPending 0 { history := [q0], cursor := none } :=
  ⟨atEnd_termination.1 [] endTrace (by decide),
   (atEnd_termination.2 wPending 0 [q0] (by decide)).1,
   (atEnd_termination.2 wPending 0 [q0] (by decide)).2.2 [(0, 25), (1, 25)]⟩

/-- Claim C6: `parseFilters` maps a `status` entry as follows — value
"all" leaves the parameters unchanged (no key emitted); "allowed" emits
`blocked = false`; "blocked" emits `blocked = true`; every other literal
value `v` emits `status = v` verbatim. -/
theorem status_filter_translation (l : List TableFilter) (v : String) :
    parseFilters (l ++ [{ id := "status", value := FilterValue.str v }]) =
      (if v = "all" then parseFilters l
       else if v = "allowed" then { parseFilters l with blocked := some false }
       else if v = "blocked" then { parseFilters l with blocked := some true }
       else { parseFilters l with status := some v }) := by
  rw [parseFilters_append_single]
  rfl

/-- Claim C7: `parseFilters` maps a `queryType` entry with sentinel "all"
to no key; any other value `v` that denotes an integer `n` (UI select
values are the 0-based indices of the query-type table) is mapped to
`query_type = n + 1`; concretely the UI value "2" yields
`query_type = 3`. -/
theorem queryType_filter_translation :
    (∀ l : List TableFilter,
        parseFilters (l ++ [{ id := "queryType", value := FilterValue.str "all" }])
          = parseFilters l)
    ∧ (∀ (l : List TableFilter) (v : String) (n : Int),
        v ≠ "all" → jsParseInt v = JSNum.int n →
        parseFilters (l ++ [{ id := "queryType", value := FilterValue.str v }])
          = { parseFilters l with query_type := some (JSNum.int (n + 1)) })
    ∧ parseFilters [{ id := "queryType", value := FilterValue.str "2" }]
        = { emptyParams with query_type := some (JSNum.int 3) } := by
  refine ⟨fun l => ?_, fun l v n hv hp => ?_, by decide⟩
  · rw [parseFilters_append_single]; rfl
  · rw [parseFilters_append_single]
    simp [applyFilter, hv, hp, jsAddOne]

/-- Claim C7, witness. -/
theorem queryType_filter_translation_witness :
    parseFilters ([] ++ [{ id := "queryType", value := FilterValue.str "2" }])
      = { parseFilters [] with query_type := some (JSNum.int (2 + 1)) } :=
  queryType_filter_translation.2.1 [] "2" 2 (by decide) (by decide)

/-- Claim C8: a filter entry whose id is outside the recognized set
{time, queryType, domain, client, status, dnssec, reply} is silently
ignored: `parseFilters` returns exactly what it returns for the same list
with that entry removed. -/
theorem unknown_filter_id_ignored (l1 l2 : List TableFilter)
    (f : TableFilter) (h : f.id ∉ knownFilterIds) :
    parseFilters (l1 ++ f :: l2) = parseFilters (l1 ++ l2) := by
  simp only [parseFilters, List.foldl_append, List.foldl_cons]
  rw [applyFilter_unknown _ _ h]

/-- Claim C8, witness. -/
theorem unknown_filter_id_ignored_witness :
    parseFilters ([{ id := "domain", value := FilterValue.str "a.com" }] ++
      fUnknown :: [{ id := "status", value := FilterValue.str "blocked" }]) =
    parseFilters ([{ id := "domain", value := FilterValue.str "a.com" }] ++
      [{ id := "status", value := FilterValue.str "blocked" }]) :=
  unknown_filter_id_ignored
    [{ id := "domain", value := FilterValue.str "a.com" }]
    [{ id := "status", value := FilterValue.str "blocked" }]
    fUnknown (by decide)

/-- Claim C9: within one filter epoch — a run that starts with empty
records and no outstanding request and contains no `setFilters` event —
the accumulated history is exactly the concatenation of the delivered
pages in delivery order, and its length is the sum of the page sizes. -/
theorem epoch_history_concat (w : World) (es : List Event)
    (hhist : w.st.history = []) (_hflight : w.inflight = [])
    (hs : ∀ e ∈ es, isSetFilters e = false) :
    (runFrom w es).st.history = (deliveredPages w es).flatten
    ∧ (runFrom w es).st.history.length
        = ((deliveredPages w es).map List.length).sum := by
  have h := runFrom_history es w hs
  rw [hhist] at h
  simp only [List.nil_append] at h
  exact ⟨h, by rw [h]; exact List.length_flatten _⟩

/-- Claim C9, witness: a two-fetch epoch delivering pages `[q0]` and
`[q1]`. -/
theorem epoch_history_concat_witness :
    (runFrom (initWorld []) epochTrace).st.history
      = (deliveredPages (initWorld []) epochTrace).flatten
    ∧ (runFrom (initWorld []) epochTrace).st.history.length
      = ((deliveredPages (initWorld []) epochTrace).map List.length).sum :=
  epoch_history_concat (initWorld []) epochTrace (by rfl) (by rfl) (by decide)

/-- Claim C10, counterexample. The claim asserts the debounce window on
filter changes is strictly longer than the one on page requests; in the
source the `onFetchData` trigger is debounced at 350 ms and the
`onFilteredChange` trigger at 300 ms, so it is not. -/
theorem debounce_windows_claim_false :
    ¬ (fetchDebounceMs < filterDebounceMs) := by decide

/-- Claim C10, amended. Both triggers are debounced with their own constant
windows, but the filter-change window (300 ms) is strictly shorter than the
page-request window (350 ms). -/
theorem filter_debounce_shorter :
    filterDebounceMs < fetchDebounceMs ∧ fetchDebounceMs = 350
      ∧ filterDebounceMs = 300 := by decide
